import Mathlib

/-!
Shallow embedding of the comparison/aggregation engine of
`src/vector_similarity/run_vector_similarity.py`.

Modelling conventions:
* Python floats are modelled as rationals (`ℚ`); `statistics.mean` is exact
  on its inputs, and every claim here is structural or algebraic.
* A Python function that can raise is modelled in `Except PyErr`; the error
  constructors distinguish the exception classes the code can actually raise
  (`IndexError` from bare indexing, `ValueError` from `list.index`,
  `StatisticsError` from `statistics.mean` on an empty list).
* The scipy distance functions (`cosine`, `euclidean`) are external library
  code, so they are parameters `measurement : V → V → ℚ`; every claim about
  the engine quantifies over the distance function.
* Python dicts with a fixed key set are records; the one conditionally
  present key (`fig_to_random`) is an `Option` field, and `metricKeys`
  recovers the dict's key list in insertion order.
-/

/-- The Python exceptions the embedded code can raise. -/
inductive PyErr where
  | indexError : PyErr
  | valueError : PyErr
  | statisticsError : PyErr
deriving DecidableEq, Repr

/-- Arithmetic mean of a list of rationals (the value `statistics.mean`
returns on non-empty input; `0` on `[]`, where the Python call raises). -/
def listMean (xs : List ℚ) : ℚ := xs.sum / (xs.length : ℚ)

/-- `statistics.mean`: raises `StatisticsError` on an empty list. -/
def pyMean (xs : List ℚ) : Except PyErr ℚ :=
  if xs.isEmpty then .error .statisticsError else .ok (listMean xs)

/-- One pairwise score in `calculate_dist_averages`: `1 - measurement(a, b)`
when `inverse` is set, `measurement(a, b)` otherwise (source lines 372-375). -/
def pairScore {V : Type} (measurement : V → V → ℚ) (inverse : Bool) (p : V × V) : ℚ :=
  if inverse then 1 - measurement p.1 p.2 else measurement p.1 p.2

/-- `itertools.product(l1, l2)`: the full Cartesian product in row-major
order. -/
def listProd {α β : Type} : List α → List β → List (α × β)
  | [], _ => []
  | a :: as, bs => bs.map (fun b => (a, b)) ++ listProd as bs

/-- `itertools.combinations(l, 2)`: all unordered pairs of distinct
positions, each in left-to-right order. -/
def combinations2 {α : Type} : List α → List (α × α)
  | [] => []
  | a :: as => as.map (fun b => (a, b)) ++ combinations2 as

/-- `calculate_dist_averages` (source lines 350-376).  `embeddings_2` keeps
Python's default `None`; the branch condition is Python truthiness
(`if embeddings_2:`), so both `None` and an empty list select the
combinations branch. -/
def calculate_dist_averages {V : Type} (measurement : V → V → ℚ) (inverse : Bool)
    (embeddings_1 : List V) (embeddings_2 : Option (List V)) : Except PyErr ℚ :=
  let embedding_pairs :=
    match embeddings_2 with
    | some (e :: es) => listProd embeddings_1 (e :: es)
    | _ => combinations2 embeddings_1
  let distances := embedding_pairs.map (pairScore measurement inverse)
  pyMean distances

theorem listProd_length {α β : Type} (as : List α) (bs : List β) :
    (listProd as bs).length = as.length * bs.length := by
  induction as with
  | nil => simp [listProd]
  | cons a as ih => simp [listProd, ih, Nat.succ_mul, Nat.add_comm]

theorem combinations2_length {α : Type} (as : List α) :
    (combinations2 as).length = as.length.choose 2 := by
  induction as with
  | nil => simp [combinations2]
  | cons a as ih =>
    simp only [combinations2, List.length_append, List.length_map, ih, List.length_cons]
    rw [Nat.choose_succ_succ, Nat.choose_one_right, Nat.add_comm]

theorem listProd_ne_nil {α β : Type} (a : α) (as : List α) (b : β) (bs : List β) :
    listProd (a :: as) (b :: bs) ≠ [] := by
  simp [listProd]

theorem combinations2_ne_nil {α : Type} (a a' : α) (as : List α) :
    combinations2 (a :: a' :: as) ≠ [] := by
  simp [combinations2]

/-- C1: with a second set given (and both sets large enough for the means to
exist), `calculate_dist_averages` returns the arithmetic mean of the
per-pair score over the full Cartesian product, `|set_a| * |set_b|` terms;
with the second set omitted it returns the mean over the unordered
within-set pairs, `|set_a| choose 2` terms; the per-pair score is
`1 - f(a, b)` when `inverse` is set and `f(a, b)` otherwise. -/
theorem dist_averages_cartesian_and_combinations {V : Type} (f : V → V → ℚ)
    (inverse : Bool) (set_a set_b : List V)
    (hb : set_b ≠ []) (ha : 2 ≤ set_a.length) :
    (calculate_dist_averages f inverse set_a (some set_b)
        = .ok (((listProd set_a set_b).map (pairScore f inverse)).sum
            / ((set_a.length * set_b.length : ℕ) : ℚ))
      ∧ (listProd set_a set_b).length = set_a.length * set_b.length)
    ∧ (calculate_dist_averages f inverse set_a none
        = .ok (((combinations2 set_a).map (pairScore f inverse)).sum
            / ((set_a.length.choose 2 : ℕ) : ℚ))
      ∧ (combinations2 set_a).length = set_a.length.choose 2)
    ∧ (∀ x y : V, pairScore f true (x, y) = 1 - f x y
        ∧ pairScore f false (x, y) = f x y) := by
  obtain ⟨b, bs, rfl⟩ : ∃ b bs, set_b = b :: bs := by
    cases set_b with
    | nil => exact absurd rfl hb
    | cons b bs => exact ⟨b, bs, rfl⟩
  obtain ⟨a, a', as, rfl⟩ : ∃ a a' as, set_a = a :: a' :: as := by
    cases set_a with
    | nil => simp at ha
    | cons a t =>
      cases t with
      | nil => simp at ha
      | cons a' as => exact ⟨a, a', as, rfl⟩
  refine ⟨⟨?_, listProd_length _ _⟩, ⟨?_, combinations2_length _⟩, ?_⟩
  · have hne : listProd (a :: a' :: as) (b :: bs) ≠ [] := listProd_ne_nil _ _ _ _
    simp only [calculate_dist_averages, pyMean, listMean, List.isEmpty_eq_true,
      List.map_eq_nil_iff, hne, if_false, List.length_map, listProd_length]
  · have hne : combinations2 (a :: a' :: as) ≠ [] := combinations2_ne_nil _ _ _
    simp only [calculate_dist_averages, pyMean, listMean, List.isEmpty_eq_true,
      List.map_eq_nil_iff, hne, if_false, List.length_map, combinations2_length]
  · intro x y
    exact ⟨rfl, rfl⟩

theorem dist_averages_cartesian_and_combinations_witness :
    ((([(3 : ℚ)]) ≠ []) ∧ 2 ≤ ([(1 : ℚ), 2]).length)
    ∧ calculate_dist_averages (fun x y : ℚ => x * y) true [(1 : ℚ), 2] (some [(3 : ℚ)])
        = .ok (((listProd [(1 : ℚ), 2] [(3 : ℚ)]).map (pairScore (fun x y : ℚ => x * y) true)).sum
            / ((([(1 : ℚ), 2]).length * ([(3 : ℚ)]).length : ℕ) : ℚ))
    ∧ calculate_dist_averages (fun x y : ℚ => x * y) true [(1 : ℚ), 2] (some [(3 : ℚ)])
        = .ok (-7 / 2) := by
  have h := dist_averages_cartesian_and_combinations (fun x y : ℚ => x * y) true
    [(1 : ℚ), 2] [(3 : ℚ)] (by simp) (by simp)
  refine ⟨⟨by simp, by simp⟩, h.1.1, ?_⟩
  rw [h.1.1]
  norm_num [listProd, pairScore, listMean]

/-- C7: a singleton set with the second set omitted yields zero candidate
pairs, and the call raises (`statistics.mean` of an empty list) rather than
returning a number. -/
theorem dist_averages_singleton_raises {V : Type} (f : V → V → ℚ) (x : V) :
    calculate_dist_averages f true [x] none = .error .statisticsError := rfl

/-- C10: an explicitly supplied empty second set is tested for truthiness,
so the call behaves exactly as if the second set were omitted and computes
the within-set combinations average of the first set. -/
theorem dist_averages_empty_second_set {V : Type} (f : V → V → ℚ) (inverse : Bool)
    (set_a : List V) :
    calculate_dist_averages f inverse set_a (some [])
      = calculate_dist_averages f inverse set_a none := rfl

/-- One per-category-pair averages dict (source builds two of these, lines
271-293 and 296-318).  The five unconditional keys are plain fields; the
conditionally inserted key is the `Option` field `fig_to_random`. -/
structure CategoryAverages where
  fig_to_literal : ℚ
  literal_to_literal : ℚ
  fig_to_fig : ℚ
  fig_to_paraphrase : ℚ
  literal_to_paraphrase : ℚ
  fig_to_random : Option ℚ
deriving DecidableEq

/-- The key list of a `CategoryAverages` dict, in insertion order. -/
def metricKeys (m : CategoryAverages) : List String :=
  ["fig_to_literal", "literal_to_literal", "fig_to_fig", "fig_to_paraphrase",
    "literal_to_paraphrase"]
    ++ (match m.fig_to_random with
        | some _ => ["fig_to_random"]
        | none => [])

/-- `calculate_word_cosine_sim_metrics` (source lines 271-293): the cosine
measurement with `inverse = True` for each category pairing; the
`fig_to_random` entry is inserted only when `random_embeddings` is truthy. -/
def calculate_word_cosine_sim_metrics {V : Type} (cosine : V → V → ℚ)
    (idiom_word_embeddings literal_usage_embeddings paraphrase_embeddings : List V)
    (random_embeddings : Option (List V)) : Except PyErr CategoryAverages := do
  let fig_to_literal ←
    calculate_dist_averages cosine true idiom_word_embeddings (some literal_usage_embeddings)
  let literal_to_literal ←
    calculate_dist_averages cosine true literal_usage_embeddings none
  let fig_to_fig ←
    calculate_dist_averages cosine true idiom_word_embeddings none
  let fig_to_paraphrase ←
    calculate_dist_averages cosine true idiom_word_embeddings (some paraphrase_embeddings)
  let literal_to_paraphrase ←
    calculate_dist_averages cosine true literal_usage_embeddings (some paraphrase_embeddings)
  let fig_to_random ←
    match random_embeddings with
    | some (e :: es) =>
        Except.map some
          (calculate_dist_averages cosine true idiom_word_embeddings (some (e :: es)))
    | _ => pure none
  pure { fig_to_literal, literal_to_literal, fig_to_fig, fig_to_paraphrase,
         literal_to_paraphrase, fig_to_random }

/-- `calculate_word_euclidean_dists` (source lines 296-318): same structure
with the Euclidean measurement and `inverse = False`. -/
def calculate_word_euclidean_dists {V : Type} (euclidean : V → V → ℚ)
    (idiom_word_embeddings literal_usage_embeddings paraphrase_embeddings : List V)
    (random_embeddings : Option (List V)) : Except PyErr CategoryAverages := do
  let fig_to_literal ←
    calculate_dist_averages euclidean false idiom_word_embeddings (some literal_usage_embeddings)
  let literal_to_literal ←
    calculate_dist_averages euclidean false literal_usage_embeddings none
  let fig_to_fig ←
    calculate_dist_averages euclidean false idiom_word_embeddings none
  let fig_to_paraphrase ←
    calculate_dist_averages euclidean false idiom_word_embeddings (some paraphrase_embeddings)
  let literal_to_paraphrase ←
    calculate_dist_averages euclidean false literal_usage_embeddings (some paraphrase_embeddings)
  let fig_to_random ←
    match random_embeddings with
    | some (e :: es) =>
        Except.map some
          (calculate_dist_averages euclidean false idiom_word_embeddings (some (e :: es)))
    | _ => pure none
  pure { fig_to_literal, literal_to_literal, fig_to_fig, fig_to_paraphrase,
         literal_to_paraphrase, fig_to_random }

theorem except_bind_ok_eval {ε α β : Type} (w : α) (f : α → Except ε β) :
    (Except.ok w >>= f) = f w := rfl

theorem except_bind_ok {ε α β : Type} {a : Except ε α} {f : α → Except ε β} {v : β}
    (h : a >>= f = .ok v) : ∃ w, a = .ok w ∧ f w = .ok v := by
  cases a with
  | error e => exact Except.noConfusion h
  | ok w => exact ⟨w, rfl, h⟩

theorem cosine_metrics_fig_to_random {V : Type} (cosine : V → V → ℚ)
    (idiom lit para rand : List V) (cm : CategoryAverages)
    (hc : calculate_word_cosine_sim_metrics cosine idiom lit para (some rand) = .ok cm) :
    (cm.fig_to_random.isSome = true ↔ rand ≠ []) := by
  rw [calculate_word_cosine_sim_metrics] at hc
  obtain ⟨v1, h1, hc⟩ := except_bind_ok hc
  obtain ⟨v2, h2, hc⟩ := except_bind_ok hc
  obtain ⟨v3, h3, hc⟩ := except_bind_ok hc
  obtain ⟨v4, h4, hc⟩ := except_bind_ok hc
  obtain ⟨v5, h5, hc⟩ := except_bind_ok hc
  cases rand with
  | nil =>
    obtain ⟨v6, h6, hc⟩ := except_bind_ok hc
    cases h6
    cases hc
    simp
  | cons r rs =>
    obtain ⟨v6, h6, hc⟩ := except_bind_ok hc
    cases hv : calculate_dist_averages cosine true idiom (some (r :: rs)) with
    | error e => rw [hv] at h6; exact Except.noConfusion h6
    | ok q =>
      rw [hv] at h6
      cases h6
      cases hc
      simp

theorem euclidean_metrics_fig_to_random {V : Type} (euclidean : V → V → ℚ)
    (idiom lit para rand : List V) (cm : CategoryAverages)
    (hc : calculate_word_euclidean_dists euclidean idiom lit para (some rand) = .ok cm) :
    (cm.fig_to_random.isSome = true ↔ rand ≠ []) := by
  rw [calculate_word_euclidean_dists] at hc
  obtain ⟨v1, h1, hc⟩ := except_bind_ok hc
  obtain ⟨v2, h2, hc⟩ := except_bind_ok hc
  obtain ⟨v3, h3, hc⟩ := except_bind_ok hc
  obtain ⟨v4, h4, hc⟩ := except_bind_ok hc
  obtain ⟨v5, h5, hc⟩ := except_bind_ok hc
  cases rand with
  | nil =>
    obtain ⟨v6, h6, hc⟩ := except_bind_ok hc
    cases h6
    cases hc
    simp
  | cons r rs =>
    obtain ⟨v6, h6, hc⟩ := except_bind_ok hc
    cases hv : calculate_dist_averages euclidean false idiom (some (r :: rs)) with
    | error e => rw [hv] at h6; exact Except.noConfusion h6
    | ok q =>
      rw [hv] at h6
      cases h6
      cases hc
      simp

theorem mem_metricKeys_fig_to_random (m : CategoryAverages) :
    ("fig_to_random" ∈ metricKeys m ↔ m.fig_to_random.isSome = true) := by
  cases h : m.fig_to_random <;> simp [metricKeys, h]

/-- C8: in a successful per-group metric computation the key `fig_to_random`
is present in the cosine dict and in the Euclidean dict exactly when the
random embedding set is non-empty, and the other five category keys are
always present in both. -/
theorem fig_to_random_key_iff {V : Type} (cos euc : V → V → ℚ)
    (idiom lit para rand : List V) (cm em : CategoryAverages)
    (hc : calculate_word_cosine_sim_metrics cos idiom lit para (some rand) = .ok cm)
    (he : calculate_word_euclidean_dists euc idiom lit para (some rand) = .ok em) :
    (("fig_to_random" ∈ metricKeys cm ↔ rand ≠ [])
      ∧ ("fig_to_random" ∈ metricKeys em ↔ rand ≠ []))
    ∧ ∀ k ∈ (["fig_to_literal", "literal_to_literal", "fig_to_fig",
        "fig_to_paraphrase", "literal_to_paraphrase"] : List String),
        k ∈ metricKeys cm ∧ k ∈ metricKeys em := by
  refine ⟨⟨?_, ?_⟩, ?_⟩
  · rw [mem_metricKeys_fig_to_random]
    exact cosine_metrics_fig_to_random cos idiom lit para rand cm hc
  · rw [mem_metricKeys_fig_to_random]
    exact euclidean_metrics_fig_to_random euc idiom lit para rand em he
  · intro k hk
    exact ⟨List.mem_append_left _ hk, List.mem_append_left _ hk⟩

theorem fig_to_random_key_iff_witness :
    ((("fig_to_random" ∈ metricKeys ⟨1, 1, 1, 1, 1, none⟩ ↔ ([] : List ℚ) ≠ [])
      ∧ ("fig_to_random" ∈ metricKeys ⟨2, 2, 2, 2, 2, none⟩ ↔ ([] : List ℚ) ≠ []))
    ∧ ∀ k ∈ (["fig_to_literal", "literal_to_literal", "fig_to_fig",
        "fig_to_paraphrase", "literal_to_paraphrase"] : List String),
        k ∈ metricKeys ⟨1, 1, 1, 1, 1, none⟩ ∧ k ∈ metricKeys ⟨2, 2, 2, 2, 2, none⟩) :=
  fig_to_random_key_iff (fun _ _ : ℚ => 0) (fun _ _ : ℚ => 2) [0, 1] [0, 1] [0] []
    ⟨1, 1, 1, 1, 1, none⟩ ⟨2, 2, 2, 2, 2, none⟩
    (by
      have h1 : calculate_dist_averages (fun _ _ : ℚ => 0) true [(0 : ℚ), 1] (some [(0 : ℚ), 1])
          = .ok 1 := by
        norm_num [calculate_dist_averages, pyMean, listMean, listProd, pairScore]
      have h2 : calculate_dist_averages (fun _ _ : ℚ => 0) true [(0 : ℚ), 1] none = .ok 1 := by
        norm_num [calculate_dist_averages, pyMean, listMean, combinations2, pairScore]
      have h3 : calculate_dist_averages (fun _ _ : ℚ => 0) true [(0 : ℚ), 1] (some [(0 : ℚ)])
          = .ok 1 := by
        norm_num [calculate_dist_averages, pyMean, listMean, listProd, pairScore]
      unfold calculate_word_cosine_sim_metrics
      simp only [h1, h2, h3, except_bind_ok_eval]
      rfl)
    (by
      have h1 : calculate_dist_averages (fun _ _ : ℚ => 2) false [(0 : ℚ), 1] (some [(0 : ℚ), 1])
          = .ok 2 := by
        norm_num [calculate_dist_averages, pyMean, listMean, listProd, pairScore]
      have h2 : calculate_dist_averages (fun _ _ : ℚ => 2) false [(0 : ℚ), 1] none = .ok 2 := by
        norm_num [calculate_dist_averages, pyMean, listMean, combinations2, pairScore]
      have h3 : calculate_dist_averages (fun _ _ : ℚ => 2) false [(0 : ℚ), 1] (some [(0 : ℚ)])
          = .ok 2 := by
        norm_num [calculate_dist_averages, pyMean, listMean, listProd, pairScore]
      unfold calculate_word_euclidean_dists
      simp only [h1, h2, h3, except_bind_ok_eval]
      rfl)

/-- One labeled word-inspection example, with the attributes the engine
reads: `pair_id` (idiom/paraphrase group), `word` (the target word as a
sequence of sub-tokens; `word[0]` is its first sub-token) and the
`figurative` flag. -/
structure Example where
  pair_id : ℕ
  word : List String
  figurative : Bool
deriving DecidableEq

/-- Python `l[i]` on a list: `IndexError` when out of range. -/
def pyGet {α : Type} (l : List α) (i : ℕ) : Except PyErr α :=
  match l.get? i with
  | some a => .ok a
  | none => .error .indexError

/-- Python `l.index(x)`: position of the first occurrence, `ValueError`
when `x` does not occur. -/
def pyListIndex {α : Type} [DecidableEq α] : List α → α → Except PyErr ℕ
  | [], _ => .error .valueError
  | a :: as, x => if a = x then .ok 0 else (pyListIndex as x).map (· + 1)

/-- `get_word_embedding` (source lines 337-348).  `decoded_tokens_of i`
stands for `dataset.get_decoded_tokens(encoded_inputs[i].tolist())` and
`embedding_outputs i j` for `embedding_outputs[i][j]` (both produced by the
external dataset/embedding collaborators).  The target position is
`decoded_tokens.index(ex.word[0])`: Python's `list.index`, which raises a
generic `ValueError` when the first sub-token is absent. -/
def get_word_embedding {V : Type} (decoded_tokens_of : ℕ → List String)
    (embedding_outputs : ℕ → ℕ → V) (data : List Example) (dataset_index : ℕ) :
    Except PyErr V := do
  let ex ← pyGet data dataset_index
  let decoded_tokens := decoded_tokens_of dataset_index
  let w0 ← pyGet ex.word 0
  let word_index ← pyListIndex decoded_tokens w0
  pure (embedding_outputs dataset_index word_index)

/-- `get_idiom_sentences` (source lines 321-334).  Python's `set(...)` of
the figurative pair ids is modelled as `List.dedup`; set iteration order is
unspecified in Python, and no claim here depends on the order of groups. -/
def get_idiom_sentences (data : List Example) : List (List ℕ) :=
  let idioms := data.enum.filter (fun p => p.2.figurative)
  let values := (idioms.map (fun p => p.2.pair_id)).dedup
  values.map (fun idiom_pair_id =>
    (idioms.filter (fun p => p.2.pair_id == idiom_pair_id)).map Prod.fst)

/-- The per-group result dict of `calculate_word_similarity_metrics`
(source lines 262-269). -/
structure WordGroupResult where
  pair_id : ℕ
  idiom_sentences : List (List String)
  word : List String
  paraphrase_word : List String
  cosine_similarities : CategoryAverages
  euclidean_distances : CategoryAverages
deriving DecidableEq

/-- `calculate_word_similarity_metrics` (source lines 219-269), with the
computation steps in source order so that the first Python exception is the
one returned.  `random_id` stands for the value of
`random.choice([999, 899, 799])` (drawn only when `random_indexes` is
falsy, mirroring `if not random_indexes:`); `cosine` and `euclidean` are
the scipy measurement parameters.  The `paraphrase_word` entry evaluates
`data[paraphrase_sents[0]]` before the two metric dicts, as the Python dict
literal does. -/
def calculate_word_similarity_metrics {V : Type} (cosine euclidean : V → V → ℚ)
    (idiom_sent_index_group : List ℕ) (data : List Example)
    (decoded_tokens_of : ℕ → List String) (embedding_outputs : ℕ → ℕ → V)
    (random_indexes : Option (List ℕ)) (random_id : ℕ) :
    Except PyErr WordGroupResult := do
  let idiom_exs ← idiom_sent_index_group.mapM (pyGet data)
  let idiom_word_embeddings ←
    idiom_sent_index_group.mapM (get_word_embedding decoded_tokens_of embedding_outputs data)
  let ex0 ← pyGet idiom_exs 0
  let pair_id := ex0.pair_id
  let idiom_word := ex0.word
  let literal_usage_sents :=
    (data.enum.filter (fun p =>
      p.2.pair_id == pair_id && p.2.word == idiom_word && !p.2.figurative)).map Prod.fst
  let paraphrase_sents :=
    (data.enum.filter (fun p =>
      p.2.pair_id == pair_id && !(p.2.word == idiom_word))).map Prod.fst
  let literal_usage_embeddings ←
    literal_usage_sents.mapM (get_word_embedding decoded_tokens_of embedding_outputs data)
  let paraphrase_embeddings ←
    paraphrase_sents.mapM (get_word_embedding decoded_tokens_of embedding_outputs data)
  let random_indexes2 : List ℕ :=
    match random_indexes with
    | some (i :: is) => i :: is
    | _ => (data.enum.filter (fun p => p.2.pair_id == random_id)).map Prod.fst
  let random_embeddings ←
    random_indexes2.mapM (get_word_embedding decoded_tokens_of embedding_outputs data)
  let idiom_sentences := idiom_sent_index_group.map decoded_tokens_of
  let pw_idx ← pyGet paraphrase_sents 0
  let pw_ex ← pyGet data pw_idx
  let cosine_similarities ←
    calculate_word_cosine_sim_metrics cosine idiom_word_embeddings
      literal_usage_embeddings paraphrase_embeddings (some random_embeddings)
  let euclidean_distances ←
    calculate_word_euclidean_dists euclidean idiom_word_embeddings
      literal_usage_embeddings paraphrase_embeddings (some random_embeddings)
  pure { pair_id, idiom_sentences, word := idiom_word, paraphrase_word := pw_ex.word,
         cosine_similarities, euclidean_distances }

/-- C4 evidence: for a group whose derived paraphrase index set is empty,
`calculate_word_similarity_metrics` fails with the generic `IndexError`
from `data[paraphrase_sents[0]]`, not with a checked precondition failure
naming the idiom group. -/
theorem paraphrase_missing_generic_index_error :
    calculate_word_similarity_metrics (fun _ _ => (0 : ℚ)) (fun _ _ => (0 : ℚ)) [0]
      [{ pair_id := 1, word := ["kick"], figurative := true }]
      (fun _ => ["kick", "the", "bucket"]) (fun _ _ => 0) none 999
      = .error .indexError := rfl

/-- C5 evidence: when the target word's first sub-token is absent from the
decoded token sequence, `get_word_embedding` fails with the generic
`ValueError` that Python's `list.index` raises, not with a dedicated
word-not-found error carrying the sentence and the expected word. -/
theorem target_token_missing_generic_value_error :
    get_word_embedding (fun _ => ["run", "##ning"]) (fun _ _ => (0 : ℚ))
      [{ pair_id := 1, word := ["running"], figurative := true }] 0
      = .error .valueError := rfl

theorem mem_filter_enum_map_fst (data : List Example) (f : Example → Bool) (i : ℕ) :
    (i ∈ (data.enum.filter (fun q => f q.2)).map Prod.fst)
      ↔ ∃ hi : i < data.length, f (data.get ⟨i, hi⟩) = true := by
  simp only [List.mem_map, List.mem_filter, Prod.exists]
  constructor
  · rintro ⟨a, b, ⟨hmem, hf⟩, rfl⟩
    have h := List.mk_mem_enum_iff_getElem?.mp hmem
    rw [List.getElem?_eq_some] at h
    obtain ⟨hi, hb⟩ := h
    refine ⟨hi, ?_⟩
    rw [List.get_eq_getElem, hb]
    exact hf
  · rintro ⟨hi, hf⟩
    refine ⟨i, data.get ⟨i, hi⟩, ⟨?_, hf⟩, rfl⟩
    rw [List.mk_mem_enum_iff_getElem?, List.getElem?_eq_some]
    exact ⟨hi, by rw [List.get_eq_getElem]⟩

/-- C6: grouping returns exactly one group per distinct `pair_id` occurring
among figurative examples (`keys` lists those pair ids without repetition,
one group per key), and the group for key `p` consists precisely of the
indices `i` with `examples[i].figurative` true and `examples[i].pair_id`
equal to `p`. -/
theorem get_idiom_sentences_partition (data : List Example) :
    ∃ keys : List ℕ,
      keys.Nodup
      ∧ (∀ p : ℕ, p ∈ keys ↔ ∃ i : ℕ, ∃ hi : i < data.length,
          ((data.get ⟨i, hi⟩).figurative = true ∧ (data.get ⟨i, hi⟩).pair_id = p))
      ∧ (get_idiom_sentences data).length = keys.length
      ∧ get_idiom_sentences data
          = keys.map (fun p =>
              ((data.enum.filter (fun q =>
                q.2.pair_id == p && q.2.figurative)).map Prod.fst))
      ∧ (∀ p i : ℕ,
          (i ∈ (data.enum.filter (fun q =>
              q.2.pair_id == p && q.2.figurative)).map Prod.fst)
            ↔ ∃ hi : i < data.length,
                ((data.get ⟨i, hi⟩).figurative = true ∧ (data.get ⟨i, hi⟩).pair_id = p)) := by
  refine ⟨((data.enum.filter (fun p => p.2.figurative)).map (fun p => p.2.pair_id)).dedup,
    List.nodup_dedup _, ?_, ?_, ?_, ?_⟩
  · intro p
    rw [List.mem_dedup]
    simp only [List.mem_map, List.mem_filter, Prod.exists]
    constructor
    · rintro ⟨a, b, ⟨hmem, hfig⟩, rfl⟩
      have h := List.mk_mem_enum_iff_getElem?.mp hmem
      rw [List.getElem?_eq_some] at h
      obtain ⟨hi, hb⟩ := h
      refine ⟨a, hi, ?_, ?_⟩
      · rw [List.get_eq_getElem, hb]; exact hfig
      · rw [List.get_eq_getElem, hb]
    · rintro ⟨i, hi, hfig, rfl⟩
      refine ⟨i, data.get ⟨i, hi⟩, ⟨?_, hfig⟩, rfl⟩
      rw [List.mk_mem_enum_iff_getElem?, List.getElem?_eq_some]
      exact ⟨hi, by rw [List.get_eq_getElem]⟩
  · simp [get_idiom_sentences]
  · simp only [get_idiom_sentences, List.filter_filter]
  · intro p i
    have h := mem_filter_enum_map_fst data (fun ex => ex.pair_id == p && ex.figurative) i
    constructor
    · intro hmem
      obtain ⟨hi, hb⟩ := h.mp hmem
      rw [Bool.and_eq_true, beq_iff_eq] at hb
      exact ⟨hi, hb.2, hb.1⟩
    · rintro ⟨hi, hfig, hp⟩
      exact h.mpr ⟨hi, by rw [Bool.and_eq_true, beq_iff_eq]; exact ⟨hp, hfig⟩⟩

/-- The summary value type: the Python code returns either the string
sentinel 'N/A' or a number, so the embedding uses a tagged sum. -/
inductive ZeroCase where
  | NA : ZeroCase
  | val : ℚ → ZeroCase
deriving DecidableEq

/-- `handle_zero_case` (source lines 430-442): the 'N/A' sentinel for an
empty category result list, otherwise `statistics.mean` of the list. -/
def handle_zero_case (category_results : List ℚ) : ZeroCase :=
  if category_results.isEmpty then .NA else .val (listMean category_results)

/-- `summarize_word_similarity_comp` (source lines 379-404).  The two
Euclidean advantage lists are computed by the source but used only in
commented-out dict entries, so the returned summary has eight entries and
no Euclidean or `fig_to_random` statistics. -/
def summarize_word_similarity_comp (results : List WordGroupResult) :
    List (String × ZeroCase) :=
  let cosine_literal_sim_advantage := results.map (fun result =>
    result.cosine_similarities.literal_to_literal - result.cosine_similarities.fig_to_literal)
  let cosine_fig_to_paraphrase_advantage := results.map (fun result =>
    result.cosine_similarities.fig_to_paraphrase - result.cosine_similarities.literal_to_paraphrase)
  let cosine_fig_to_fig_advantage := results.map (fun result =>
    result.cosine_similarities.fig_to_fig - result.cosine_similarities.literal_to_literal)
  let eud_literal_sim_advantage := results.map (fun result =>
    result.euclidean_distances.fig_to_literal - result.euclidean_distances.literal_to_literal)
  let eud_fig_to_paraphrase_advantage := results.map (fun result =>
    result.euclidean_distances.literal_to_paraphrase - result.euclidean_distances.fig_to_paraphrase)
  [("Average COSINE SIM- literal to literal",
      handle_zero_case (results.map (fun result => result.cosine_similarities.literal_to_literal))),
   ("Average COSINE SIM- figurative to literal",
      handle_zero_case (results.map (fun result => result.cosine_similarities.fig_to_literal))),
   ("Average COSINE SIM- figurative to figurative",
      handle_zero_case (results.map (fun result => result.cosine_similarities.fig_to_fig))),
   ("Average COSINE SIM- figurative to paraphrase",
      handle_zero_case (results.map (fun result => result.cosine_similarities.fig_to_paraphrase))),
   ("Average COSINE SIM- literal to paraphrase",
      handle_zero_case (results.map (fun result => result.cosine_similarities.literal_to_paraphrase))),
   ("COSINE SIM avg improvement - lit_to_lit_improvement_over_fig_to_lit",
      handle_zero_case cosine_literal_sim_advantage),
   ("COSINE SIM avg improvement - fig_to_paraphrase_improvement_over_lit_to_paraphrase",
      handle_zero_case cosine_fig_to_paraphrase_advantage),
   ("COSINE SIM ave improvement- fig_to_fig_improvement_over_lit_to_lit",
      handle_zero_case cosine_fig_to_fig_advantage)]

/-- A group whose per-group category averages come from one
literal-literal pair score and one fig-literal pair score (both `0`). -/
def advGroupA : WordGroupResult :=
  { pair_id := 1, idiom_sentences := [], word := ["a"], paraphrase_word := ["b"],
    cosine_similarities :=
      { fig_to_literal := listMean [0], literal_to_literal := listMean [0],
        fig_to_fig := 0, fig_to_paraphrase := 0, literal_to_paraphrase := 0,
        fig_to_random := none },
    euclidean_distances :=
      { fig_to_literal := 0, literal_to_literal := 0, fig_to_fig := 0,
        fig_to_paraphrase := 0, literal_to_paraphrase := 0, fig_to_random := none } }

/-- A group whose per-group category averages come from two
literal-literal pair scores `[1, 1]` and two fig-literal scores `[0, 0]`. -/
def advGroupB : WordGroupResult :=
  { pair_id := 2, idiom_sentences := [], word := ["c"], paraphrase_word := ["d"],
    cosine_similarities :=
      { fig_to_literal := listMean [0, 0], literal_to_literal := listMean [1, 1],
        fig_to_fig := 0, fig_to_paraphrase := 0, literal_to_paraphrase := 0,
        fig_to_random := none },
    euclidean_distances :=
      { fig_to_literal := 0, literal_to_literal := 0, fig_to_fig := 0,
        fig_to_paraphrase := 0, literal_to_paraphrase := 0, fig_to_random := none } }

/-- C2: on a non-empty result list, each of the three cosine advantage
statistics equals the mean over groups of the per-group difference; and on
the concrete groups `advGroupA`/`advGroupB`, built from one and two
underlying pair scores respectively, that average-of-differences (1/2)
differs from the difference-of-pooled-averages (2/3). -/
theorem word_summary_advantage_deltas (r : WordGroupResult) (rs : List WordGroupResult) :
    ((summarize_word_similarity_comp (r :: rs)).lookup
        "COSINE SIM avg improvement - lit_to_lit_improvement_over_fig_to_lit"
      = some (.val (listMean ((r :: rs).map (fun g =>
          g.cosine_similarities.literal_to_literal - g.cosine_similarities.fig_to_literal)))))
    ∧ ((summarize_word_similarity_comp (r :: rs)).lookup
        "COSINE SIM avg improvement - fig_to_paraphrase_improvement_over_lit_to_paraphrase"
      = some (.val (listMean ((r :: rs).map (fun g =>
          g.cosine_similarities.fig_to_paraphrase - g.cosine_similarities.literal_to_paraphrase)))))
    ∧ ((summarize_word_similarity_comp (r :: rs)).lookup
        "COSINE SIM ave improvement- fig_to_fig_improvement_over_lit_to_lit"
      = some (.val (listMean ((r :: rs).map (fun g =>
          g.cosine_similarities.fig_to_fig - g.cosine_similarities.literal_to_literal)))))
    ∧ ((summarize_word_similarity_comp [advGroupA, advGroupB]).lookup
        "COSINE SIM avg improvement - lit_to_lit_improvement_over_fig_to_lit"
      = some (.val (1 / 2)))
    ∧ ((1 : ℚ) / 2 ≠ listMean ([0] ++ [1, 1]) - listMean ([0] ++ [0, 0])) := by
  refine ⟨?_, ?_, ?_, ?_, ?_⟩
  · simp [summarize_word_similarity_comp, List.lookup, handle_zero_case]
  · simp [summarize_word_similarity_comp, List.lookup, handle_zero_case]
  · simp [summarize_word_similarity_comp, List.lookup, handle_zero_case]
  · simp [summarize_word_similarity_comp, List.lookup, handle_zero_case, advGroupA, advGroupB,
      listMean]
  · norm_num [listMean]

/-- A group whose cosine dict carries `fig_to_random = 7` and `0` in every
other category, so a fig_to_random run-level average would be `7`. -/
def randomOnlyGroup : WordGroupResult :=
  { pair_id := 7, idiom_sentences := [], word := ["w"], paraphrase_word := ["p"],
    cosine_similarities :=
      { fig_to_literal := 0, literal_to_literal := 0, fig_to_fig := 0,
        fig_to_paraphrase := 0, literal_to_paraphrase := 0, fig_to_random := some 7 },
    euclidean_distances :=
      { fig_to_literal := 0, literal_to_literal := 0, fig_to_fig := 0,
        fig_to_paraphrase := 0, literal_to_paraphrase := 0, fig_to_random := none } }

/-- C3 counterexample: on a result list whose `fig_to_random` mean across
groups is `7`, the word-mode summary consists of exactly the five category
averages and three advantage entries, and no entry holds the value `7`; the
summary therefore contains no `fig_to_random` run-level average, refuting
the six-category claim. -/
theorem word_summary_no_fig_to_random_average :
    ((summarize_word_similarity_comp [randomOnlyGroup]).map Prod.fst
        = ["Average COSINE SIM- literal to literal",
           "Average COSINE SIM- figurative to literal",
           "Average COSINE SIM- figurative to figurative",
           "Average COSINE SIM- figurative to paraphrase",
           "Average COSINE SIM- literal to paraphrase",
           "COSINE SIM avg improvement - lit_to_lit_improvement_over_fig_to_lit",
           "COSINE SIM avg improvement - fig_to_paraphrase_improvement_over_lit_to_paraphrase",
           "COSINE SIM ave improvement- fig_to_fig_improvement_over_lit_to_lit"])
    ∧ ZeroCase.val 7 ∉ (summarize_word_similarity_comp [randomOnlyGroup]).map Prod.snd := by
  constructor
  · rfl
  · norm_num [summarize_word_similarity_comp, handle_zero_case, listMean, randomOnlyGroup]

/-- C3 amended: on a non-empty result list the word-mode summary contains a
run-level arithmetic-mean-across-groups average for five of the six cosine
categories (fig_to_literal, literal_to_literal, fig_to_fig,
fig_to_paraphrase, literal_to_paraphrase); no fig_to_random average is
produced. -/
theorem word_summary_five_category_averages (r : WordGroupResult)
    (rs : List WordGroupResult) :
    ((summarize_word_similarity_comp (r :: rs)).lookup "Average COSINE SIM- literal to literal"
      = some (.val (listMean ((r :: rs).map (fun g => g.cosine_similarities.literal_to_literal)))))
    ∧ ((summarize_word_similarity_comp (r :: rs)).lookup "Average COSINE SIM- figurative to literal"
      = some (.val (listMean ((r :: rs).map (fun g => g.cosine_similarities.fig_to_literal)))))
    ∧ ((summarize_word_similarity_comp (r :: rs)).lookup
        "Average COSINE SIM- figurative to figurative"
      = some (.val (listMean ((r :: rs).map (fun g => g.cosine_similarities.fig_to_fig)))))
    ∧ ((summarize_word_similarity_comp (r :: rs)).lookup
        "Average COSINE SIM- figurative to paraphrase"
      = some (.val (listMean ((r :: rs).map (fun g => g.cosine_similarities.fig_to_paraphrase)))))
    ∧ ((summarize_word_similarity_comp (r :: rs)).lookup
        "Average COSINE SIM- literal to paraphrase"
      = some (.val (listMean ((r :: rs).map (fun g =>
          g.cosine_similarities.literal_to_paraphrase))))) := by
  refine ⟨?_, ?_, ?_, ?_, ?_⟩ <;>
    simp [summarize_word_similarity_comp, List.lookup, handle_zero_case]

/-- One sentence-pair result as built by
`calculate_paraphrase_pair_similarity` (source lines 196-216), restricted
to the fields the sentence summarizer reads: the gold `paraphrase` label,
the classifier `judgment` and the pair's cosine similarity. -/
structure SentPairResult where
  paraphrase : Bool
  judgment : Bool
  cosine_similarity : ℚ
deriving DecidableEq

/-- `summarize_sentence_similarity_comp` (source lines 407-427): the four
confusion-matrix partitions by (gold label, judgment), the two label-only
partitions, and `handle_zero_case` of the mean within each. -/
def summarize_sentence_similarity_comp (results : List SentPairResult) :
    List (String × ZeroCase) :=
  let correctly_judged_paraphrases :=
    (results.filter (fun result => result.paraphrase && result.judgment)).map
      (fun result => result.cosine_similarity)
  let correctly_judged_non_paraphrases :=
    (results.filter (fun result => !result.paraphrase && !result.judgment)).map
      (fun result => result.cosine_similarity)
  let incorrectly_judged_paraphrases :=
    (results.filter (fun result => result.paraphrase && !result.judgment)).map
      (fun result => result.cosine_similarity)
  let incorrectly_judged_non_paraphrases :=
    (results.filter (fun result => !result.paraphrase && result.judgment)).map
      (fun result => result.cosine_similarity)
  let paraphrases :=
    (results.filter (fun result => result.paraphrase)).map
      (fun result => result.cosine_similarity)
  let non_paraphrases :=
    (results.filter (fun result => !result.paraphrase)).map
      (fun result => result.cosine_similarity)
  [("average_cosine_sim_for_correctly_judged_paraphrases",
      handle_zero_case correctly_judged_paraphrases),
   ("average_cosine_sim_for_correctly_judged_non_paraphrases",
      handle_zero_case correctly_judged_non_paraphrases),
   ("average_cosine_sim_for_incorrectly_judged_paraphrases",
      handle_zero_case incorrectly_judged_paraphrases),
   ("average_cosine_sim_for_incorrectly_judged_non_paraphrases",
      handle_zero_case incorrectly_judged_non_paraphrases),
   ("average_cosine_for_paraphrases", handle_zero_case paraphrases),
   ("average_cosine_for_non_paraphrases", handle_zero_case non_paraphrases)]

/-- C9: the four confusion-matrix quadrant predicates put every result in
exactly one quadrant (their filter lengths sum to the whole list, and the
two label-only partitions split along the quadrants); the summary reports
`handle_zero_case` of the within-partition scores for all six partitions;
and `handle_zero_case` yields the non-numeric sentinel exactly on an empty
partition, never the number 0, independently per partition. -/
theorem sentence_summary_partitions (results : List SentPairResult) :
    (∀ res ∈ results,
      ([res.paraphrase && res.judgment, !res.paraphrase && !res.judgment,
        res.paraphrase && !res.judgment, !res.paraphrase && res.judgment].count true) = 1)
    ∧ ((results.filter (fun res => res.paraphrase && res.judgment)).length
        + (results.filter (fun res => !res.paraphrase && !res.judgment)).length
        + (results.filter (fun res => res.paraphrase && !res.judgment)).length
        + (results.filter (fun res => !res.paraphrase && res.judgment)).length
        = results.length)
    ∧ ((results.filter (fun res => res.paraphrase)).length
        = (results.filter (fun res => res.paraphrase && res.judgment)).length
          + (results.filter (fun res => res.paraphrase && !res.judgment)).length)
    ∧ summarize_sentence_similarity_comp results
        = [("average_cosine_sim_for_correctly_judged_paraphrases",
              handle_zero_case ((results.filter (fun res =>
                res.paraphrase && res.judgment)).map (fun res => res.cosine_similarity))),
           ("average_cosine_sim_for_correctly_judged_non_paraphrases",
              handle_zero_case ((results.filter (fun res =>
                !res.paraphrase && !res.judgment)).map (fun res => res.cosine_similarity))),
           ("average_cosine_sim_for_incorrectly_judged_paraphrases",
              handle_zero_case ((results.filter (fun res =>
                res.paraphrase && !res.judgment)).map (fun res => res.cosine_similarity))),
           ("average_cosine_sim_for_incorrectly_judged_non_paraphrases",
              handle_zero_case ((results.filter (fun res =>
                !res.paraphrase && res.judgment)).map (fun res => res.cosine_similarity))),
           ("average_cosine_for_paraphrases",
              handle_zero_case ((results.filter (fun res =>
                res.paraphrase)).map (fun res => res.cosine_similarity))),
           ("average_cosine_for_non_paraphrases",
              handle_zero_case ((results.filter (fun res =>
                !res.paraphrase)).map (fun res => res.cosine_similarity)))]
    ∧ (∀ l : List ℚ,
        (handle_zero_case l = ZeroCase.NA ↔ l = [])
        ∧ (l ≠ [] → handle_zero_case l = ZeroCase.val (listMean l)))
    ∧ (∀ q : ℚ, ZeroCase.NA ≠ ZeroCase.val q) := by
  refine ⟨?_, ?_, ?_, rfl, ?_, ?_⟩
  · intro res _
    rcases res with ⟨p, j, c⟩
    cases p <;> cases j <;> rfl
  · induction results with
    | nil => rfl
    | cons r t ih =>
      rcases r with ⟨p, j, c⟩
      cases p <;> cases j <;> simp [List.filter_cons] <;> omega
  · induction results with
    | nil => rfl
    | cons r t ih =>
      rcases r with ⟨p, j, c⟩
      cases p <;> cases j <;> simp [List.filter_cons] <;> omega
  · intro l
    cases l <;> simp [handle_zero_case]
  · intro q h
    exact ZeroCase.noConfusion h
